import Mathlib

/-!
Shallow embedding of the video-rendering pipeline in `handler.py`
(`render_video`, `create_subtitle_file` and their helpers).

Durations and timestamps are modelled over `ℚ` (the Python code computes
with floats on the same formulas); external-process outcomes (download
success, encoder exit codes, probe results) are passed in as explicit
parameters, mirroring exactly how `render_video` consumes them.
-/

namespace Handler

attribute [local semireducible] Rat.mul Rat.add Rat.sub Rat.inv

/-- Python `a % b` on numbers (sign of the divisor): `a - b * ⌊a / b⌋`.
Used by `format_time` in `create_subtitle_file` (handler.py:193-198). -/
def pymod (a b : ℚ) : ℚ := a - b * ⌊a / b⌋

/-- Left-pad a digit string with `'0'` up to width `w`
(the pad part of Python's `f"{n:02d}"`). -/
def zfill (w : Nat) (s : String) : String :=
  if s.length < w then String.mk (List.replicate (w - s.length) '0') ++ s else s

/-- Python `f"{n:02d}"` / `f"{n:03d}"`: zero-padded decimal with the sign
before the padding. -/
def pad_int (w : Nat) (n : ℤ) : String :=
  if n < 0 then "-" ++ zfill (w - 1) (toString (-n)) else zfill w (toString n)

/-- `format_time` from `create_subtitle_file` (handler.py:193-198):
`HH:MM:SS,mmm`.  Python's `int(x // y)` is `⌊x / y⌋`, and `int(x)` on the
non-negative remainders produced by `%` is also the floor. -/
def format_time (seconds : ℚ) : String :=
  let hrs : ℤ := ⌊seconds / 3600⌋
  let mins : ℤ := ⌊pymod seconds 3600 / 60⌋
  let secs : ℤ := ⌊pymod seconds 60⌋
  let ms : ℤ := ⌊pymod seconds 1 * 1000⌋
  pad_int 2 hrs ++ ":" ++ pad_int 2 mins ++ ":" ++ pad_int 2 secs ++ "," ++ pad_int 3 ms

/-- The two fields of a scene dict that `create_subtitle_file` reads:
`scene['duration']` (the requested duration from the job payload — the
function is called on the raw input scenes, handler.py:486) and
`scene.get('subtitle')`. -/
structure SubScene where
  duration : ℚ
  subtitle : Option String
deriving DecidableEq

/-- Python truthiness of `scene.get('subtitle')`: present and non-empty. -/
def hasSubtitle (s : SubScene) : Bool :=
  match s.subtitle with
  | some t => t != ""
  | none => false

/-- The loop body of `create_subtitle_file` (handler.py:186-207), returning
both the accumulated SRT text and the list of `(start_time, end_time)` cue
pairs it emits.  `start_time` and `subtitle_index` are the loop's running
state; `effective_duration = scene['duration'] + (buffer if last else 0)`;
the cue end is `start_time + scene['duration']` (unbuffered); the running
time then advances by the effective duration plus the gap (when not last
and the gap is positive). -/
def srt_run (gap_duration last_scene_buffer : ℚ) :
    List SubScene → ℚ → ℕ → String × List (ℚ × ℚ)
  | [], _, _ => ("", [])
  | scene :: rest, start_time, subtitle_index =>
    let is_last : Bool := rest.isEmpty
    let effective_duration : ℚ :=
      scene.duration + (if is_last then last_scene_buffer else 0)
    let next_start : ℚ := start_time + effective_duration +
      (if is_last then 0 else if gap_duration > 0 then gap_duration else 0)
    match scene.subtitle with
    | some t =>
      if t != "" then
        let end_time := start_time + scene.duration
        let rest_out := srt_run gap_duration last_scene_buffer rest next_start (subtitle_index + 1)
        (toString subtitle_index ++ "\n" ++ format_time start_time ++ " --> " ++
            format_time end_time ++ "\n" ++ t ++ "\n\n" ++ rest_out.1,
          (start_time, end_time) :: rest_out.2)
      else srt_run gap_duration last_scene_buffer rest next_start subtitle_index
    | none => srt_run gap_duration last_scene_buffer rest next_start subtitle_index

/-- `create_subtitle_file` (handler.py:180-210): the SRT text written to
the subtitle file (`start_time` starts at 0, cue numbering at 1). -/
def create_subtitle_file (scenes : List SubScene) (gap_duration last_scene_buffer : ℚ) : String :=
  (srt_run gap_duration last_scene_buffer scenes 0 1).1

/-- The `(start_time, end_time)` pairs of the cues `create_subtitle_file`
emits, in order (same loop as `create_subtitle_file`, projecting the cue
timestamps instead of their SRT rendering). -/
def subtitleCues (scenes : List SubScene) (gap_duration last_scene_buffer : ℚ) : List (ℚ × ℚ) :=
  (srt_run gap_duration last_scene_buffer scenes 0 1).2

/-- The gap actually added after a non-last scene
(`if ... and gap_duration > 0: start_time += gap_duration`). -/
def gapEff (gap : ℚ) : ℚ := if gap > 0 then gap else 0

/-- Closed form for the start time of scene `i` in the subtitle timeline:
the durations of scenes `0..i-1` (no end buffer, since none of them is the
last scene) plus one effective gap after each. -/
def sceneStart (durs : List ℚ) (gap : ℚ) (i : ℕ) : ℚ :=
  (durs.take i).sum + (i : ℚ) * gapEff gap

/-- The fixed frame rate of `render_video` (handler.py:239). -/
def fps : ℕ := 30

/-- The resolution table `res_map` of `render_video` (handler.py:232-238),
with the `1080p` default for unknown keys. -/
def res_map (resolution : String) : ℕ × ℕ :=
  if resolution = "1440p" then (2560, 1440)
  else if resolution = "1080p" then (1920, 1080)
  else if resolution = "720p" then (1280, 720)
  else if resolution = "480p" then (854, 480)
  else (1920, 1080)

/-- The per-scene source fields `render_video` reads, together with the
outcome of each remote download it would trigger: a field `videoUrl` that
is present and whose `download_from_url` succeeds is `some true`, present
but failing is `some false`, absent is `none`.  Inline base64 fields
(`videoData`, `imageData`, `audioData`) are booleans for presence
(`download_base64_file` has no failure path in the source). -/
structure SceneSources where
  videoData : Bool
  videoUrl : Option Bool
  imageData : Bool
  imageUrl : Option Bool
  audioData : Bool
  audioUrl : Option Bool
deriving DecidableEq

/-- Visual-media acquisition for scene `i` (handler.py:258-288): video data
first, then video URL (a failed video download silently falls through to
the image sources), then image data, then image URL (a failed image
download is a scene-indexed error), else the scene-indexed no-media error.
Returns `is_video` on success. -/
def acquire_media (i : ℕ) (s : SceneSources) : Except String Bool :=
  if s.videoData then Except.ok true
  else if s.videoUrl = some true then Except.ok true
  else if s.imageData then Except.ok false
  else
    match s.imageUrl with
    | some true => Except.ok false
    | some false => Except.error ("씬 " ++ toString (i + 1) ++ " 이미지 다운로드 실패")
    | none => Except.error ("씬 " ++ toString (i + 1) ++ "에 미디어 데이터가 없습니다.")

/-- Audio acquisition (handler.py:292-301): whether an audio file ends up
on disk.  A failed `audioUrl` download sets `audio_file = None` — it is
absorbed, never an error. -/
def acquire_audio (s : SceneSources) : Bool :=
  if s.audioData then true
  else
    match s.audioUrl with
    | some ok => ok
    | none => false

/-- The measured-or-fallback audio duration of a scene
(handler.py:291-306): start from `scene.get('duration', 3)`; when an audio
file was acquired and `get_video_duration` (the ffprobe wrapper, returning
0 on failure) measures a positive value, that measurement wins. -/
def renderer_audio_duration (requested : Option ℚ) (audio_acquired : Bool) (probe : ℚ) : ℚ :=
  let audio_duration := requested.getD 3
  if audio_acquired then (if 0 < probe then probe else audio_duration) else audio_duration

/-- `target_duration = audio_duration + gap_to_include + end_buffer`
(handler.py:252-254, 308): the gap is included for every scene but the
last, the 1.0 s end buffer only for the last. -/
def target_duration (audio_duration gap : ℚ) (is_last : Bool) : ℚ :=
  audio_duration + (if is_last then 0 else gap) + (if is_last then 1 else 0)

/-- `exact_frames = math.ceil(target_duration * fps) + 1` (handler.py:310). -/
def exact_frames (target_duration : ℚ) (frame_rate : ℕ) : ℤ :=
  ⌈target_duration * (frame_rate : ℚ)⌉ + 1

/-- What scene `i`'s processing contributes to the timeline: the requested
frame count of its segment and the duration recorded in
`actual_durations` (handler.py:308-310, 386-389) — both derived from the
measured-or-fallback audio duration. -/
def process_scene_timing (requested : Option ℚ) (audio_acquired : Bool)
    (probe gap : ℚ) (is_last : Bool) : ℤ × ℚ :=
  let audio_duration := renderer_audio_duration requested audio_acquired probe
  (exact_frames (target_duration audio_duration gap is_last) fps, audio_duration)

/-- The scale-to-fit + letterbox-pad filter shared verbatim by all four
encoder commands (handler.py:320, 338, 356, 373). -/
def scale_pad (w h : ℕ) : String :=
  "scale=" ++ toString w ++ ":" ++ toString h ++ ":force_original_aspect_ratio=decrease,pad=" ++
    toString w ++ ":" ++ toString h ++ ":(ow-iw)/2:(oh-ih)/2:black"

/-- The structure of one segment-encoder invocation
(handler.py:316-346 for the GPU profile, 352-380 for the CPU profile):
input looping args, filter graph, requested frame count, codec, preset,
rate-control args, pixel format, output rate, and whether `-an` is passed. -/
structure EncodeCmd where
  pre_input : List String
  vf : String
  frames : ℤ
  vcodec : String
  preset : String
  rate_control : List String
  pix_fmt : String
  out_rate : ℕ
  no_audio : Bool
deriving DecidableEq

/-- Builder for the four segment-encoder command variants.  `gpu = true`
gives `h264_nvenc`, `p4`, `-rc vbr -cq 23`; `gpu = false` gives
`libx264`, `ultrafast`, `-crf 23`; `is_video` selects the loop/fps variant
of the filter; the image commands carry no `-an`. -/
def segment_cmd (gpu is_video : Bool) (w h frame_rate : ℕ) (frames : ℤ) : EncodeCmd :=
  { pre_input := if is_video then ["-stream_loop", "-1"]
      else ["-framerate", toString frame_rate, "-loop", "1"],
    vf := if is_video then "fps=" ++ toString frame_rate ++ "," ++ scale_pad w h
      else scale_pad w h,
    frames := frames,
    vcodec := if gpu then "h264_nvenc" else "libx264",
    preset := if gpu then "p4" else "ultrafast",
    rate_control := if gpu then ["-rc", "vbr", "-cq", "23"] else ["-crf", "23"],
    pix_fmt := "yuv420p",
    out_rate := frame_rate,
    no_audio := is_video }

/-- Python `s[:n]` (slicing a `str` by code points). -/
def py_slice (s : String) (n : ℕ) : String := String.mk (s.toList.take n)

/-- Outcome of rendering one segment: the list of encoder commands that
were issued ending in a success, or the error dict value. -/
inductive SegmentOutcome where
  | ok : List EncodeCmd → SegmentOutcome
  | err : String → SegmentOutcome
deriving DecidableEq

/-- The encode-with-fallback block for scene `i` (handler.py:348-383):
run the GPU command; on non-zero exit rebuild the same filter/frame-count
command with the CPU profile and run it once; on a second non-zero exit
return the error dict naming scene `i+1` with `result.stderr[:500]`.
`gpu_exit`/`cpu_exit` are the exit codes of the two possible `ffmpeg`
invocations and `cpu_stderr` the second one's diagnostic output. -/
def render_segment (i : ℕ) (is_video : Bool) (w h frame_rate : ℕ) (frames : ℤ)
    (gpu_exit cpu_exit : ℤ) (cpu_stderr : String) : SegmentOutcome :=
  if gpu_exit = 0 then
    SegmentOutcome.ok [segment_cmd true is_video w h frame_rate frames]
  else if cpu_exit = 0 then
    SegmentOutcome.ok [segment_cmd true is_video w h frame_rate frames,
      segment_cmd false is_video w h frame_rate frames]
  else
    SegmentOutcome.err
      ("세그먼트 " ++ toString (i + 1) ++ " 렌더링 실패: " ++ py_slice cpu_stderr 500)

/-- `fade_out_start = max(0, total_duration - fade_out)` from the BGM
mixing step (handler.py:457). -/
def fade_out_start (total_duration fade_out : ℚ) : ℚ :=
  max 0 (total_duration - fade_out)

/-- The 100 MB threshold `100 * 1024 * 1024` (handler.py:589). -/
def size_limit : ℕ := 100 * 1024 * 1024

/-- `file_size / (1024 * 1024)` — we keep the exact rational; the Python
code additionally rounds it to two decimals for display. -/
def sizeMB_of (file_size : ℕ) : ℚ := (file_size : ℚ) / (1024 * 1024)

/-- The shape of the dict `render_video` returns (handler.py:576-605 and
the error returns): which keys are present, and the values of the
metadata keys.  `has_videoData` is the presence of the inline base64
`videoData` key; `has_error` the presence of an `error` key. -/
structure ResultDict where
  success : Bool
  has_error : Bool
  has_videoData : Bool
  uploadedToDrive : Bool
  duration : Option ℚ
  sizeMB : Option ℚ
  actualSegmentDurations : Option (List (String × ℚ))
  actualGapDuration : Option ℚ
deriving DecidableEq

/-- An `{'error': ...}` return (e.g. handler.py:550, 554): no success flag,
no metadata. -/
def error_result : ResultDict :=
  { success := false, has_error := true, has_videoData := false, uploadedToDrive := false,
    duration := none, sizeMB := none, actualSegmentDurations := none, actualGapDuration := none }

/-- The result-packaging tail of `render_video` (handler.py:556-605),
given that the output file exists: if the Drive upload path is taken and
succeeds, return the Drive reference dict (with durations and gap); else
if `file_size < 100 * 1024 * 1024`, return the inline base64 dict (with
durations and gap); else return the advisory dict — `success: True`, an
`error` message, `duration` and `sizeMB`, but neither
`actualSegmentDurations` nor `actualGapDuration`. -/
def package_result (drive_upload_ok : Bool) (file_size : ℕ) (duration : ℚ)
    (actual_durations : List (String × ℚ)) (gap : ℚ) : ResultDict :=
  if drive_upload_ok then
    { success := true, has_error := false, has_videoData := false, uploadedToDrive := true,
      duration := some duration, sizeMB := some (sizeMB_of file_size),
      actualSegmentDurations := some actual_durations, actualGapDuration := some gap }
  else if file_size < size_limit then
    { success := true, has_error := false, has_videoData := true, uploadedToDrive := false,
      duration := some duration, sizeMB := some (sizeMB_of file_size),
      actualSegmentDurations := some actual_durations, actualGapDuration := some gap }
  else
    { success := true, has_error := true, has_videoData := false, uploadedToDrive := false,
      duration := some duration, sizeMB := some (sizeMB_of file_size),
      actualSegmentDurations := none, actualGapDuration := none }

/-- The exit statuses and file-existence facts that drive the tail of
`render_video` after all segments rendered.  `concat_exit` is the exit
status of the segment-concat `ffmpeg` run (handler.py:400-407): the
source stores its `subprocess.run` result nowhere and never inspects it.
`final_exit` is the exit status of the last attempted final-compose run
(after its own GPU→CPU fallback, handler.py:524-549). -/
structure RunOutcomes where
  concat_exit : ℤ
  final_exit : ℤ
  output_exists : Bool
  drive_upload_ok : Bool
deriving DecidableEq

/-- The pipeline tail from segment concat to the returned dict
(handler.py:393-605).  The concat invocation's exit status is not read by
the source, so it does not influence the result; the run fails only on a
non-zero final-compose exit (handler.py:549-550) or a missing output file
(handler.py:553-554). -/
def finish_pipeline (o : RunOutcomes) (file_size : ℕ) (duration : ℚ)
    (actual_durations : List (String × ℚ)) (gap : ℚ) : ResultDict :=
  if o.final_exit ≠ 0 then error_result
  else if o.output_exists = false then error_result
  else package_result o.drive_upload_ok file_size duration actual_durations gap

/-- The cue emitted for scene `i` by `srt_run` starts at the running start
time plus the closed-form `sceneStart`, and ends one raw scene duration
later, whenever every scene carries a (non-empty) subtitle. -/
lemma srt_run_cues (gap buffer : ℚ) :
    ∀ (scenes : List SubScene) (start : ℚ) (idx : ℕ),
      (∀ s ∈ scenes, hasSubtitle s = true) →
      ∀ i, i < scenes.length →
        (srt_run gap buffer scenes start idx).2.getD i (0, 0) =
          (start + sceneStart (scenes.map SubScene.duration) gap i,
           start + sceneStart (scenes.map SubScene.duration) gap i +
             (scenes.map SubScene.duration).getD i 0) := by
  intro scenes
  induction scenes with
  | nil => intro start idx _ i hi; simp at hi
  | cons s rest ih =>
    intro start idx h i hi
    have hs : hasSubtitle s = true := h s (List.mem_cons_self s rest)
    obtain ⟨t, hsub, ht⟩ : ∃ t, s.subtitle = some t ∧ t ≠ "" := by
      cases hst : s.subtitle with
      | none => simp [hasSubtitle, hst] at hs
      | some t => exact ⟨t, rfl, by simpa [hasSubtitle, hst] using hs⟩
    rcases i with _ | n
    · simp [srt_run, hsub, ht, sceneStart]
    · have hrest : rest ≠ [] := by
        intro he
        subst he
        simp at hi
      have hlast : rest.isEmpty = false := by
        cases rest with
        | nil => exact absurd rfl hrest
        | cons a l => rfl
      have hn : n < rest.length := by simpa using hi
      have hrec := ih (start + (s.duration + 0) + (if gap > 0 then gap else 0)) (idx + 1)
        (fun x hx => h x (List.mem_cons_of_mem _ hx)) n hn
      simp only [srt_run, hsub, hlast, ht, ne_eq, not_false_eq_true, bne_iff_ne, if_true,
        Bool.false_eq_true, if_false, List.getD_cons_succ, List.map_cons]
      rw [hrec]
      have hcast : ((n + 1 : ℕ) : ℚ) = (n : ℚ) + 1 := by push_cast; ring
      have hS : sceneStart (s.duration :: List.map SubScene.duration rest) gap (n + 1) =
          s.duration + sceneStart (List.map SubScene.duration rest) gap n +
            (if gap > 0 then gap else 0) := by
        simp only [sceneStart, List.take_succ_cons, List.sum_cons, hcast, gapEff]
        ring
      rw [hS]
      simp only [Prod.mk.injEq]
      constructor <;> ring

/-- C2 (confirmed): for an ordered scene list where every scene is
subtitled, cue `i` starts at the sum of the raw durations of scenes
`0..i-1` plus the gap after each of them, and ends one raw (unbuffered)
scene duration later; and on the spec's concrete example (durations 2.0 s
and 3.0 s, gap 1.0 s, end buffer 1.0 s, both subtitled) `create_subtitle_file`
produces exactly the cues `00:00:00,000 --> 00:00:02,000` and
`00:00:03,000 --> 00:00:06,000`. -/
theorem C2_subtitle_cue_times (scenes : List SubScene) (gap buffer : ℚ)
    (hsub : ∀ s ∈ scenes, hasSubtitle s = true) (i : ℕ) (hi : i < scenes.length) :
    (subtitleCues scenes gap buffer).getD i (0, 0) =
      (sceneStart (scenes.map SubScene.duration) gap i,
       sceneStart (scenes.map SubScene.duration) gap i +
         (scenes.map SubScene.duration).getD i 0)
    ∧ create_subtitle_file [⟨2, some "A"⟩, ⟨3, some "B"⟩] 1 1 =
      "1\n00:00:00,000 --> 00:00:02,000\nA\n\n2\n00:00:03,000 --> 00:00:06,000\nB\n\n" := by
  constructor
  · have h := srt_run_cues gap buffer scenes 0 1 hsub i hi
    simpa [subtitleCues] using h
  · decide

/-- Witness for C2 at the spec's example: cue 2 (index 1) runs from 3 s to
6 s. -/
theorem C2_subtitle_cue_times_witness :
    (subtitleCues [⟨2, some "A"⟩, ⟨3, some "B"⟩] 1 1).getD 1 (0, 0) =
      (sceneStart ([(⟨2, some "A"⟩ : SubScene), ⟨3, some "B"⟩].map SubScene.duration) 1 1,
       sceneStart ([(⟨2, some "A"⟩ : SubScene), ⟨3, some "B"⟩].map SubScene.duration) 1 1 +
         (([(⟨2, some "A"⟩ : SubScene), ⟨3, some "B"⟩].map SubScene.duration).getD 1 0)) :=
  (C2_subtitle_cue_times [⟨2, some "A"⟩, ⟨3, some "B"⟩] 1 1 (by decide) 1 (by decide)).1

/-- C1 (code bug): the Segment Renderer and the Subtitle Timeline
Generator do not derive their per-scene durations from identical inputs.
For a single (last) scene with requested `duration` 2.0 whose audio file
probes to 5.0 s, the renderer's measured-or-fallback duration is 5.0 and
its frame count is `ceil((5+1)*30)+1 = 181`, while `create_subtitle_file`
works from the requested 2.0 (cue `0 → 2`; a renderer driven by 2.0 would
have requested `ceil((2+1)*30)+1 = 91` frames). -/
theorem C1_timeline_not_deterministic :
    renderer_audio_duration (some 2) true 5 = 5
    ∧ subtitleCues [⟨2, some "A"⟩] 0 1 = [(0, 2)]
    ∧ (process_scene_timing (some 2) true 5 0 true).1 = 181
    ∧ exact_frames (target_duration 2 0 true) fps = 91
    ∧ renderer_audio_duration (some 2) true 5 ≠ 2 := by
  refine ⟨by decide, by decide, by decide, by decide, by decide⟩

/-- C3 (confirmed): for `0 ≤ target_duration`, the requested frame count
`ceil(target_duration * fps) + 1` is at least 1, and it is monotone
non-decreasing in the target duration. -/
theorem C3_frame_count (d e : ℚ) (r : ℕ) (hd : 0 ≤ d) (hde : d ≤ e) :
    1 ≤ exact_frames d r ∧ exact_frames d r ≤ exact_frames e r := by
  constructor
  · have h0 : (0 : ℚ) ≤ d * (r : ℚ) := mul_nonneg hd (Nat.cast_nonneg r)
    have h1 : (0 : ℤ) ≤ ⌈d * (r : ℚ)⌉ := Int.ceil_nonneg h0
    unfold exact_frames
    omega
  · have hmul : d * (r : ℚ) ≤ e * (r : ℚ) :=
      mul_le_mul_of_nonneg_right hde (Nat.cast_nonneg r)
    have h2 : ⌈d * (r : ℚ)⌉ ≤ ⌈e * (r : ℚ)⌉ := Int.ceil_mono hmul
    unfold exact_frames
    omega

/-- Witness for C3 at durations 2 s and 3 s, 30 fps. -/
theorem C3_frame_count_witness :
    1 ≤ exact_frames 2 30 ∧ exact_frames 2 30 ≤ exact_frames 3 30 :=
  C3_frame_count 2 3 30 (by norm_num) (by norm_num)

/-- C4 counterexample: an artifact of exactly `100 * 1024 * 1024` bytes is
NOT returned inline — the strict `<` sends it to the advisory branch. -/
theorem C4_exact_100MB_not_inline :
    (package_result false size_limit 10 [("scene_0", 2)] 1).has_videoData = false
    ∧ (package_result false size_limit 10 [("scene_0", 2)] 1).has_error = true := by
  exact ⟨rfl, rfl⟩

/-- C4 (amended): absent a successful upload, an artifact strictly under
100 MB is returned inline; an artifact of exactly 100 MB — and anything
larger — yields the advisory result: `success` still true, an `error`
message, no inline video data, and size/duration metadata populated. -/
theorem C4_size_threshold (file_size : ℕ) (duration : ℚ)
    (durs : List (String × ℚ)) (gap : ℚ) :
    (file_size < size_limit →
      (package_result false file_size duration durs gap).has_videoData = true
      ∧ (package_result false file_size duration durs gap).has_error = false)
    ∧ (size_limit ≤ file_size →
      (package_result false file_size duration durs gap).has_videoData = false
      ∧ (package_result false file_size duration durs gap).has_error = true
      ∧ (package_result false file_size duration durs gap).success = true
      ∧ (package_result false file_size duration durs gap).sizeMB = some (sizeMB_of file_size)
      ∧ (package_result false file_size duration durs gap).duration = some duration) := by
  constructor
  · intro h
    simp [package_result, h]
  · intro h
    simp [package_result, Nat.not_lt.mpr h]

/-- Witness for C4 at the exact boundary (one byte over behaves the same
way by monotonicity of `≤`). -/
theorem C4_size_threshold_witness :
    (package_result false size_limit 3 [] 0).has_videoData = false
    ∧ (package_result false size_limit 3 [] 0).has_error = true := by
  have h := (C4_size_threshold size_limit 3 [] 0).2 le_rfl
  exact ⟨h.1, h.2.1⟩

/-- C5 (confirmed): the CPU-profile command rebuilds the same filter
graph, frame count, input-loop args and output rate as the GPU command;
when the GPU encode exits non-zero the pipeline retries exactly once with
the CPU profile, and a second non-zero exit is a hard error that names
scene `i+1` and carries the encoder's stderr truncated to 500 characters. -/
theorem C5_gpu_cpu_fallback (i : ℕ) (is_video : Bool) (w h r : ℕ) (frames : ℤ)
    (gpu_exit cpu_exit : ℤ) (cpu_stderr : String) (hg : gpu_exit ≠ 0) :
    (segment_cmd false is_video w h r frames).vf = (segment_cmd true is_video w h r frames).vf
    ∧ (segment_cmd false is_video w h r frames).frames = frames
    ∧ (segment_cmd true is_video w h r frames).frames = frames
    ∧ (segment_cmd false is_video w h r frames).pre_input
        = (segment_cmd true is_video w h r frames).pre_input
    ∧ (segment_cmd false is_video w h r frames).out_rate
        = (segment_cmd true is_video w h r frames).out_rate
    ∧ (cpu_exit = 0 →
        render_segment i is_video w h r frames gpu_exit cpu_exit cpu_stderr =
          SegmentOutcome.ok [segment_cmd true is_video w h r frames,
            segment_cmd false is_video w h r frames])
    ∧ (cpu_exit ≠ 0 →
        render_segment i is_video w h r frames gpu_exit cpu_exit cpu_stderr =
          SegmentOutcome.err
            ("세그먼트 " ++ toString (i + 1) ++ " 렌더링 실패: " ++ py_slice cpu_stderr 500)
        ∧ (py_slice cpu_stderr 500).length ≤ 500) := by
  refine ⟨rfl, rfl, rfl, rfl, rfl, ?_, ?_⟩
  · intro hc
    simp [render_segment, hg, hc]
  · intro hc
    refine ⟨by simp [render_segment, hg, hc], ?_⟩
    have hlen : (py_slice cpu_stderr 500).length = (cpu_stderr.toList.take 500).length := rfl
    rw [hlen, List.length_take]
    omega

/-- Witness for C5: forced GPU and CPU failures on a concrete scene yield
the scene-indexed truncated error. -/
theorem C5_gpu_cpu_fallback_witness :
    render_segment 0 true 1920 1080 30 181 1 1 "boom" =
      SegmentOutcome.err
        ("세그먼트 " ++ toString (0 + 1) ++ " 렌더링 실패: " ++ py_slice "boom" 500) :=
  ((C5_gpu_cpu_fallback 0 true 1920 1080 30 181 1 1 "boom" (by decide)).2.2.2.2.2.2
    (by decide)).1

/-- C6 counterexample: the oversized-advisory result omits both
`actualSegmentDurations` and `actualGapDuration`, while still being a
returned result of a completed render (`success` is true). -/
theorem C6_oversized_omits_durations :
    (package_result false (size_limit + 1) 7 [("k", 3)] 2).actualSegmentDurations = none
    ∧ (package_result false (size_limit + 1) 7 [("k", 3)] 2).actualGapDuration = none
    ∧ (package_result false (size_limit + 1) 7 [("k", 3)] 2).success = true := by
  exact ⟨rfl, rfl, rfl⟩

/-- C6 (amended): the uploaded and inline results both carry the
per-scene actual durations and the configured gap; the oversized-advisory
result carries neither, only `duration` and `sizeMB`. -/
theorem C6_result_metadata (ok : Bool) (file_size : ℕ) (duration : ℚ)
    (durs : List (String × ℚ)) (gap : ℚ) :
    ((ok = true ∨ file_size < size_limit) →
      (package_result ok file_size duration durs gap).actualSegmentDurations = some durs
      ∧ (package_result ok file_size duration durs gap).actualGapDuration = some gap)
    ∧ (ok = false → size_limit ≤ file_size →
      (package_result ok file_size duration durs gap).actualSegmentDurations = none
      ∧ (package_result ok file_size duration durs gap).actualGapDuration = none
      ∧ (package_result ok file_size duration durs gap).duration = some duration
      ∧ (package_result ok file_size duration durs gap).sizeMB = some (sizeMB_of file_size)) := by
  constructor
  · rintro (h | h)
    · subst h
      simp [package_result]
    · cases ok
      · simp [package_result, h]
      · simp [package_result]
  · rintro rfl h
    simp [package_result, Nat.not_lt.mpr h]

/-- Witness for C6: a successful upload of an oversized artifact still
reports the durations and the gap. -/
theorem C6_result_metadata_witness :
    (package_result true (size_limit + 5) 1 [("a", 2)] 3).actualSegmentDurations = some [("a", 2)]
    ∧ (package_result true (size_limit + 5) 1 [("a", 2)] 3).actualGapDuration = some 3 :=
  (C6_result_metadata true (size_limit + 5) 1 [("a", 2)] 3).1 (Or.inl rfl)

/-- C7 counterexample: a scene whose remote video download fails but that
carries inline image data continues as an image scene (`ok false`), and a
scene whose remote audio download fails produces no error at all — the
pipeline renders it from the requested duration (here 4 s → 151 frames). -/
theorem C7_download_failure_can_continue :
    acquire_media 0 { videoData := false, videoUrl := some false, imageData := true,
                      imageUrl := none, audioData := false, audioUrl := some false }
      = Except.ok false
    ∧ acquire_audio { videoData := false, videoUrl := some false, imageData := true,
                      imageUrl := none, audioData := false, audioUrl := some false } = false
    ∧ process_scene_timing (some 4) false 0 0 true = (151, 4) := by
  refine ⟨rfl, rfl, by decide⟩

/-- C7 (amended): a failed image-URL download on a scene with no other
visual source is a scene-indexed error naming scene `i+1`; a failed
video-URL download silently falls back to the scene's image sources; a
failed audio download is absorbed — the scene continues with its
requested-or-3s fallback duration instead of erroring. -/
theorem C7_scene_indexed_acquisition (i : ℕ) (s : SceneSources) (req : Option ℚ) (p : ℚ) :
    (s.videoData = false → s.videoUrl ≠ some true → s.imageData = false →
      s.imageUrl = some false →
      acquire_media i s = Except.error ("씬 " ++ toString (i + 1) ++ " 이미지 다운로드 실패"))
    ∧ (s.videoData = false → s.videoUrl = some false → s.imageData = true →
      acquire_media i s = Except.ok false)
    ∧ (s.audioData = false → s.audioUrl = some false →
      acquire_audio s = false
      ∧ renderer_audio_duration req (acquire_audio s) p = req.getD 3) := by
  refine ⟨?_, ?_, ?_⟩
  · intro h1 h2 h3 h4
    simp [acquire_media, h1, h2, h3, h4]
  · intro h1 h2 h3
    simp [acquire_media, h1, h2, h3]
  · intro h1 h2
    have ha : acquire_audio s = false := by simp [acquire_audio, h1, h2]
    rw [ha]
    exact ⟨rfl, rfl⟩

/-- Witness for C7 (amended) at a concrete scene whose image download
fails and that has no other visual source. -/
theorem C7_scene_indexed_acquisition_witness :
    acquire_media 0 { videoData := false, videoUrl := none, imageData := false,
                      imageUrl := some false, audioData := false, audioUrl := some false }
      = Except.error ("씬 " ++ toString (0 + 1) ++ " 이미지 다운로드 실패") :=
  (C7_scene_indexed_acquisition 0 { videoData := false, videoUrl := none, imageData := false,
                                    imageUrl := some false, audioData := false,
                                    audioUrl := some false } none 1).1
    rfl (by decide) rfl rfl

/-- C8 (code bug): the segment-concat exit status is never read by
`render_video`, so a run in which the concat tool reported an error
(exit 1) but the final compose succeeded on the (partial) merged file
still returns a full success result — and the result is bit-for-bit the
one a clean concat (exit 0) would have produced. -/
theorem C8_concat_error_still_success :
    (finish_pipeline { concat_exit := 1, final_exit := 0, output_exists := true,
                       drive_upload_ok := false } 5 10 [("scene_0", 10)] 0).success = true
    ∧ (finish_pipeline { concat_exit := 1, final_exit := 0, output_exists := true,
                         drive_upload_ok := false } 5 10 [("scene_0", 10)] 0).has_error = false
    ∧ (finish_pipeline { concat_exit := 1, final_exit := 0, output_exists := true,
                         drive_upload_ok := false } 5 10 [("scene_0", 10)] 0).has_videoData = true
    ∧ finish_pipeline { concat_exit := 1, final_exit := 0, output_exists := true,
                        drive_upload_ok := false } 5 10 [("scene_0", 10)] 0 =
      finish_pipeline { concat_exit := 0, final_exit := 0, output_exists := true,
                        drive_upload_ok := false } 5 10 [("scene_0", 10)] 0 := by
  exact ⟨rfl, rfl, rfl, rfl⟩

/-- C9 (confirmed): the BGM fade-out start time is `max(0, total - fadeOut)`,
hence never negative, and it clamps to 0 whenever the fade-out length
reaches or exceeds the total duration. -/
theorem C9_fade_out_start_clamped (total fade_out : ℚ) :
    fade_out_start total fade_out = max 0 (total - fade_out)
    ∧ 0 ≤ fade_out_start total fade_out
    ∧ (total ≤ fade_out → fade_out_start total fade_out = 0) := by
  refine ⟨rfl, le_max_left _ _, fun h => ?_⟩
  have hle : total - fade_out ≤ 0 := by linarith
  simpa [fade_out_start] using max_eq_left hle

/-- Witness for C9 with `fadeOut` (5 s) exceeding the total duration (2 s). -/
theorem C9_fade_out_start_clamped_witness : fade_out_start 2 5 = 0 :=
  (C9_fade_out_start_clamped 2 5).2.2 (by norm_num)

/-- C10 (confirmed): a scene with no `duration` field and no usable audio
— no audio file acquired, or a probe result that is not positive — is
rendered from the 3-second fallback: its frame count is computed from a
target of `3 + gap_to_include + end_buffer` and its reported actual
duration is exactly 3. -/
theorem C10_three_second_fallback (s : SceneSources) (probe gap : ℚ) (is_last : Bool)
    (h : acquire_audio s = false ∨ probe ≤ 0) :
    process_scene_timing none (acquire_audio s) probe gap is_last =
      (exact_frames (target_duration 3 gap is_last) fps, 3) := by
  rcases h with h | h
  · simp [process_scene_timing, renderer_audio_duration, h]
  · cases ha : acquire_audio s
    · simp [process_scene_timing, renderer_audio_duration]
    · have hp : ¬ (0 < probe) := not_lt.mpr h
      simp [process_scene_timing, renderer_audio_duration, hp]

/-- Witness for C10: a last scene with a failed audio download, no
`duration` field and gap 0 gets target `3 + 1` s → 121 frames and a
reported duration of 3 s. -/
theorem C10_three_second_fallback_witness :
    process_scene_timing none
      (acquire_audio { videoData := false, videoUrl := none, imageData := true,
                       imageUrl := none, audioData := false, audioUrl := some false })
      0 0 true = (121, 3) := by
  have h := C10_three_second_fallback
    { videoData := false, videoUrl := none, imageData := true,
      imageUrl := none, audioData := false, audioUrl := some false } 0 0 true (Or.inr le_rfl)
  rw [h]
  decide

end Handler
